import Mathlib

/-!
Verification of the electronic-invoicing application (Next.js + AFIP service).

Shallow embedding of the authorization pipeline:
* the per-line amount recomputation effect and the totals computation of
  src/src/app/page.tsx,
* the AFIPService class of src/src/lib/afip.ts (document-type mapping,
  request building, simulated signing, simulated CAE issuance, CAE expiry,
  QR payload construction, sendInvoice, getNextInvoiceNumber),
* the POST route handler (totals validation and dispatch to sendInvoice).

Modelling conventions:
* JavaScript numbers are embedded as rationals (ℚ); toFixed(2) becomes
  rounding half-up at two decimals (round2 below).
* Math.random() results are passed in explicitly as a rational in [0, 1).
* The current clock date (new Date()) is passed in as an explicit civil date.
* The QR image encoder (QRCode.toDataURL), the only await in sendInvoice that
  can throw, is passed in as an oracle of type String → Except String String;
  its error case feeds the catch branch of sendInvoice.
-/

set_option linter.unusedVariables false

namespace Facturacion

/-- Rounding a rational to two decimal places, half up: the model of
Number(x.toFixed(2)) on the rationals (Rat.floor keeps the definition
kernel-computable). -/
def round2 (x : ℚ) : ℚ := (((100 * x + 1 / 2).floor : ℤ) : ℚ) / 100

theorem ratFloor_intFloor (q : ℚ) : q.floor = ⌊q⌋ := by
  rw [Rat.floor_def', Rat.floor_def]

theorem round2_eq_round (x : ℚ) : round2 x = ((round (100 * x) : ℤ) : ℚ) / 100 := by
  rw [round2, ratFloor_intFloor, round_eq]

theorem ratFloor_eq_of (q : ℚ) (z : ℤ) (h1 : (z : ℚ) ≤ q) (h2 : q < z + 1) :
    q.floor = z := by
  rw [ratFloor_intFloor]
  exact Int.floor_eq_iff.mpr ⟨h1, h2⟩

theorem round2_eq_of (x : ℚ) (z : ℤ) (h1 : (z : ℚ) ≤ 100 * x + 1 / 2)
    (h2 : 100 * x + 1 / 2 < z + 1) : round2 x = (z : ℚ) / 100 := by
  rw [round2, ratFloor_eq_of _ z h1 h2]

/-- Little-endian base-10 digits, computed with explicit fuel so that the
kernel can evaluate it (Nat.digits is defined by well-founded recursion). -/
def digitsRev : Nat → Nat → List Nat
  | 0, _ => []
  | fuel + 1, n => if n = 0 then [] else n % 10 :: digitsRev fuel (n / 10)

/-- Little-endian base-10 digits of a natural number. -/
def natDigits (n : Nat) : List Nat := digitsRev n n

theorem digitsRev_eq_digits :
    ∀ (fuel n : Nat), n ≤ fuel → digitsRev fuel n = Nat.digits 10 n
  | 0, n, h => by
    have : n = 0 := Nat.le_zero.mp h
    simp [digitsRev, this]
  | fuel + 1, n, h => by
    by_cases hn : n = 0
    · simp [digitsRev, hn]
    · rw [digitsRev, if_neg hn,
        digitsRev_eq_digits fuel (n / 10) (by omega),
        Nat.digits_def' (by norm_num : (1 : ℕ) < 10) (Nat.pos_of_ne_zero hn)]

theorem natDigits_eq (n : Nat) : natDigits n = Nat.digits 10 n :=
  digitsRev_eq_digits n n le_rfl

/-- The character for a single decimal digit. -/
def digitCh : Nat → Char
  | 0 => '0' | 1 => '1' | 2 => '2' | 3 => '3' | 4 => '4'
  | 5 => '5' | 6 => '6' | 7 => '7' | 8 => '8' | 9 => '9'
  | _ => '*'

/-- Decimal digit characters of a natural number, most significant first;
empty for 0. -/
def digitsToChars (n : Nat) : List Char := ((natDigits n).map digitCh).reverse

/-- Decimal rendering of a natural number, as JavaScript's Number.toString
produces it (0 renders as "0"). -/
def renderNat (n : Nat) : List Char := if n = 0 then ['0'] else digitsToChars n

/-- Numeric value of a decimal digit character. -/
def chVal (c : Char) : Nat := c.toNat - 48

/-- Take the longest prefix of decimal digit characters. -/
def takeDigits : List Char → (List Char × List Char)
  | [] => ([], [])
  | c :: rest =>
    if c.isDigit then
      let p := takeDigits rest
      (c :: p.1, p.2)
    else ([], c :: rest)

/-- Value of a big-endian list of decimal digit characters. -/
def charsVal (ds : List Char) : Nat := ds.foldl (fun a c => 10 * a + chVal c) 0

/-- Parse a nonempty run of decimal digits off the front of a character list,
returning its value and the unconsumed tail. -/
def parseNatRun (l : List Char) : Option (Nat × List Char) :=
  let p := takeDigits l
  if p.1 = [] then none else some (charsVal p.1, p.2)

/-- True when the list does not start with a decimal digit. -/
def headNotDigit : List Char → Bool
  | [] => true
  | c :: _ => !c.isDigit

theorem digitCh_isDigit {d : Nat} (hd : d < 10) : (digitCh d).isDigit = true := by
  interval_cases d <;> decide

theorem chVal_digitCh {d : Nat} (hd : d < 10) : chVal (digitCh d) = d := by
  interval_cases d <;> decide

theorem digitsToChars_all_digits (n : Nat) :
    ∀ c ∈ digitsToChars n, c.isDigit = true := by
  intro c hc
  simp only [digitsToChars, natDigits_eq, List.mem_reverse, List.mem_map] at hc
  obtain ⟨d, hd, rfl⟩ := hc
  exact digitCh_isDigit (Nat.digits_lt_base (by norm_num) hd)

theorem renderNat_all_digits (n : Nat) :
    ∀ c ∈ renderNat n, c.isDigit = true := by
  intro c hc
  by_cases h : n = 0
  · simp [renderNat, h] at hc
    simp [hc]
  · simp only [renderNat, h, if_false] at hc
    exact digitsToChars_all_digits n c hc

theorem takeDigits_append {ds rest : List Char}
    (hds : ∀ c ∈ ds, c.isDigit = true) (hrest : headNotDigit rest = true) :
    takeDigits (ds ++ rest) = (ds, rest) := by
  induction ds with
  | nil =>
    cases rest with
    | nil => rfl
    | cons c r =>
      simp only [headNotDigit, Bool.not_eq_true'] at hrest
      simp [takeDigits, hrest]
  | cons c ds ih =>
    have hc : c.isDigit = true := hds c (by simp)
    have hds' : ∀ x ∈ ds, x.isDigit = true := fun x hx => hds x (by simp [hx])
    simp [takeDigits, hc, ih hds']

theorem charsVal_digitsToChars (n : Nat) : charsVal (digitsToChars n) = n := by
  have key : ∀ L : List Nat, (∀ d ∈ L, d < 10) →
      ((L.map digitCh).reverse.foldl (fun a c => 10 * a + chVal c) 0) =
        Nat.ofDigits 10 L := by
    intro L
    induction L with
    | nil => intro _; rfl
    | cons d L ih =>
      intro hL
      have hd : d < 10 := hL d (by simp)
      have hL' : ∀ x ∈ L, x < 10 := fun x hx => hL x (by simp [hx])
      simp only [List.map_cons, List.reverse_cons, List.foldl_append,
        List.foldl_cons, List.foldl_nil]
      rw [ih hL', chVal_digitCh hd, Nat.ofDigits_cons]
      ring
  have := key (Nat.digits 10 n) (fun d hd => Nat.digits_lt_base (by norm_num) hd)
  rw [digitsToChars, natDigits_eq, charsVal, this, Nat.ofDigits_digits]

theorem charsVal_renderNat (n : Nat) : charsVal (renderNat n) = n := by
  by_cases h : n = 0
  · simp [renderNat, h, charsVal, chVal]
  · simp only [renderNat, h, if_false]
    exact charsVal_digitsToChars n

theorem renderNat_ne_nil (n : Nat) : renderNat n ≠ [] := by
  by_cases h : n = 0
  · simp [renderNat, h]
  · simp only [renderNat, h, if_false, digitsToChars, natDigits_eq]
    simp [Nat.digits_ne_nil_iff_ne_zero.mpr h]

theorem parseNatRun_render (n : Nat) {rest : List Char}
    (hrest : headNotDigit rest = true) :
    parseNatRun (renderNat n ++ rest) = some (n, rest) := by
  rw [parseNatRun, takeDigits_append (renderNat_all_digits n) hrest]
  simp [renderNat_ne_nil n, charsVal_renderNat n]

/-- Consume an expected literal prefix, returning the tail after it. -/
def expectLit : List Char → List Char → Option (List Char)
  | [], l => some l
  | _ :: _, [] => none
  | c :: p, x :: l => if x = c then expectLit p l else none

theorem expectLit_append (p l : List Char) : expectLit p (p ++ l) = some l := by
  induction p with
  | nil => rfl
  | cons c p ih => simp [expectLit, ih]

/-- JSON string-body escaping as JSON.stringify performs it on the quote and
backslash characters (control characters, which never occur in this
application's payload fields, are left untouched by this model). -/
def escapeChars : List Char → List Char
  | [] => []
  | c :: rest =>
    if c = '"' ∨ c = '\\' then '\\' :: c :: escapeChars rest
    else c :: escapeChars rest

/-- Parse a JSON string body up to its closing quote, undoing the escaping;
returns the body and the characters after the closing quote. -/
def parseStrBody : List Char → Option (List Char × List Char)
  | [] => none
  | c :: rest =>
    if c = '"' then some ([], rest)
    else if c = '\\' then
      match rest with
      | [] => none
      | d :: rest2 =>
        match parseStrBody rest2 with
        | none => none
        | some p => some (d :: p.1, p.2)
    else
      match parseStrBody rest with
      | none => none
      | some p => some (c :: p.1, p.2)

theorem parseStrBody_quote (rest : List Char) :
    parseStrBody ('"' :: rest) = some ([], rest) := by
  rw [parseStrBody.eq_def]
  simp

theorem parseStrBody_esc (c : Char) (l : List Char) :
    parseStrBody ('\\' :: c :: l) =
      match parseStrBody l with
      | none => none
      | some p => some (c :: p.1, p.2) := by
  rw [parseStrBody.eq_def]
  simp

theorem parseStrBody_other (c : Char) (l : List Char)
    (h1 : ¬c = '"') (h2 : ¬c = '\\') :
    parseStrBody (c :: l) =
      match parseStrBody l with
      | none => none
      | some p => some (c :: p.1, p.2) := by
  rw [parseStrBody.eq_def]
  simp [h1, h2]

theorem parseStrBody_escape (s : List Char) (rest : List Char) :
    parseStrBody (escapeChars s ++ '"' :: rest) = some (s, rest) := by
  induction s with
  | nil => simpa [escapeChars] using parseStrBody_quote rest
  | cons c s ih =>
    by_cases hc : c = '"' ∨ c = '\\'
    · simp only [escapeChars, hc, if_true, List.cons_append]
      rw [parseStrBody_esc, ih]
    · push_neg at hc
      have hesc : escapeChars (c :: s) = c :: escapeChars s := by
        rw [escapeChars, if_neg (by tauto)]
      rw [hesc, List.cons_append, parseStrBody_other c _ hc.1 hc.2, ih]

/-- Decimal rendering of a nonnegative monetary amount (a rational whose
denominator divides 100), as JSON.stringify renders such a JavaScript number:
no trailing zeros, no decimal point for whole amounts. -/
def renderMoney (q : ℚ) : List Char :=
  let c := (q * 100).num.toNat
  let i := c / 100
  let f := c % 100
  if f = 0 then renderNat i
  else if f % 10 = 0 then renderNat i ++ '.' :: [digitCh (f / 10)]
  else renderNat i ++ '.' :: [digitCh (f / 10), digitCh (f % 10)]

/-- Parse the optional fractional part (at most two digits) that may follow
the integer part of a decimal number; the first argument is the already-parsed
integer part. -/
def parseFrac (i : ℕ) : List Char → Option (ℚ × List Char)
  | [] => some ((i : ℚ), [])
  | r :: rest2 =>
    if r = '.' then
      match takeDigits rest2 with
      | ([d], r2) => some ((i : ℚ) + (chVal d : ℚ) / 10, r2)
      | ([d, e], r2) => some ((i : ℚ) + ((10 * chVal d + chVal e : ℕ) : ℚ) / 100, r2)
      | _ => none
    else some ((i : ℚ), r :: rest2)

/-- Parse a nonnegative decimal number with at most two fractional digits off
the front of a character list. -/
def parseMoney (l : List Char) : Option (ℚ × List Char) :=
  match parseNatRun l with
  | none => none
  | some (i, rest) => parseFrac i rest

theorem renderMoney_cents (c : ℕ) :
    renderMoney ((c : ℚ) / 100) =
      (if c % 100 = 0 then renderNat (c / 100)
       else if c % 100 % 10 = 0 then
         renderNat (c / 100) ++ '.' :: [digitCh (c % 100 / 10)]
       else renderNat (c / 100) ++
         '.' :: [digitCh (c % 100 / 10), digitCh (c % 100 % 10)]) := by
  have h : ((c : ℚ) / 100 * 100).num.toNat = c := by
    rw [div_mul_cancel₀ _ (by norm_num : (100 : ℚ) ≠ 0)]
    simp
  rw [renderMoney, h]

theorem parseMoney_natPrefix (i : ℕ) {rest : List Char}
    (h : headNotDigit rest = true) :
    parseMoney (renderNat i ++ rest) = parseFrac i rest := by
  rw [parseMoney, parseNatRun_render i h]

theorem parseMoney_render (c : ℕ) {rest : List Char}
    (h1 : headNotDigit rest = true) (h2 : ∀ l, rest ≠ '.' :: l) :
    parseMoney (renderMoney ((c : ℚ) / 100) ++ rest) = some ((c : ℚ) / 100, rest) := by
  rw [renderMoney_cents]
  have h100 : (100 : ℚ) ≠ 0 := by norm_num
  by_cases hf : c % 100 = 0
  · rw [if_pos hf, parseMoney_natPrefix _ h1]
    have hval : ((c / 100 : ℕ) : ℚ) = (c : ℚ) / 100 := by
      rw [eq_div_iff h100]
      exact_mod_cast (by omega : (c / 100) * 100 = c)
    cases rest with
    | nil => simp [parseFrac, hval]
    | cons r rs =>
      have hr : ¬r = '.' := fun h => h2 rs (by rw [h])
      simp [parseFrac, hr, hval]
  · rw [if_neg hf]
    by_cases hf10 : c % 100 % 10 = 0
    · rw [if_pos hf10, List.append_assoc, List.cons_append,
        parseMoney_natPrefix _ (by rfl)]
      have htake : takeDigits ([digitCh (c % 100 / 10)] ++ rest) =
          ([digitCh (c % 100 / 10)], rest) :=
        takeDigits_append
          (by
            intro x hx
            simp only [List.mem_singleton] at hx
            rw [hx]
            exact digitCh_isDigit (by omega)) h1
      simp only [List.singleton_append] at htake
      simp [parseFrac, htake, chVal_digitCh (show c % 100 / 10 < 10 by omega)]
      rw [eq_div_iff h100, add_mul]
      have hten : ((c % 100 / 10 : ℕ) : ℚ) / 10 * 100 =
          ((c % 100 / 10 : ℕ) : ℚ) * 10 := by ring
      rw [hten]
      exact_mod_cast (by omega : (c / 100) * 100 + (c % 100 / 10) * 10 = c)
    · rw [if_neg hf10, List.append_assoc, List.cons_append,
        parseMoney_natPrefix _ (by rfl)]
      have htake : takeDigits
          ([digitCh (c % 100 / 10), digitCh (c % 100 % 10)] ++ rest) =
          ([digitCh (c % 100 / 10), digitCh (c % 100 % 10)], rest) :=
        takeDigits_append
          (by
            intro x hx
            simp only [List.mem_cons, List.not_mem_nil, or_false] at hx
            rcases hx with h | h <;> rw [h]
            · exact digitCh_isDigit (by omega)
            · exact digitCh_isDigit (by omega)) h1
      simp only [List.cons_append, List.nil_append] at htake
      simp [parseFrac, htake, chVal_digitCh (show c % 100 / 10 < 10 by omega),
        chVal_digitCh (show c % 100 % 10 < 10 by omega)]
      rw [eq_div_iff h100, add_mul, div_mul_cancel₀ _ h100]
      exact_mod_cast
        (by omega : ((c / 100) * 100 + (10 * (c % 100 / 10) + c % 100 % 10) : ℕ) = c)

/-! ## Data model (src/src/types/invoice.ts) -/

/-- One billed item (interface InvoiceItem). -/
structure InvoiceItem where
  id : String
  descripcion : String
  cantidad : ℚ
  precioUnitario : ℚ
  alicuotaIVA : ℚ
  importeIVA : ℚ
  importeTotal : ℚ
deriving DecidableEq

/-- Invoice recipient (interface ClienteData). -/
structure ClienteData where
  tipoDocumento : String
  numeroDocumento : String
  razonSocial : String
  domicilio : String
  condicionIVA : String
deriving DecidableEq

/-- One electronic invoice submission (interface InvoiceData). The TypeScript
type restricts tipoComprobante to a three-string union, but AFIPService
accesses it through a string cast, so the embedding keeps it as a string. -/
structure InvoiceData where
  tipoComprobante : String
  puntoVenta : Nat
  numeroComprobante : Nat
  fecha : String
  cliente : ClienteData
  items : List InvoiceItem
  subtotal : ℚ
  totalIVA : ℚ
  total : ℚ
  observaciones : Option String
deriving DecidableEq

/-- Outcome of one submission (interface AFIPResponse). -/
structure AFIPResponse where
  success : Bool
  cae : Option String
  fechaVencimientoCae : Option String
  numeroComprobante : Option Nat
  qrCode : Option String
  error : Option String
  observaciones : Option (List String)
deriving DecidableEq

/-- Service configuration (interface AFIPConfig). -/
structure AFIPConfig where
  cuit : String
  puntoVenta : Nat
  certificatePath : String
  certificatePassword : String
  endpoint : String
  ambiente : String
deriving DecidableEq

/-! ## Calendar dates

JavaScript date arithmetic (new Date(); fecha.setDate(fecha.getDate() + 10);
toISOString().split('T')[0]) is embedded as proleptic-Gregorian civil dates
with the standard days-from-civil / civil-from-days conversions, restricted
to years ≥ 1 (all the application ever handles). -/

/-- A calendar date (no time component). -/
structure CivilDate where
  year : Nat
  month : Nat
  day : Nat
deriving DecidableEq

/-- Day count of a civil date (days since 0000-03-01 of the proleptic
Gregorian calendar), valid for year ≥ 1. -/
def daysFromCivil (dt : CivilDate) : Nat :=
  let y := if dt.month ≤ 2 then dt.year - 1 else dt.year
  let era := y / 400
  let yoe := y % 400
  let mp := (dt.month + 9) % 12
  let doy := (153 * mp + 2) / 5 + (dt.day - 1)
  let doe := yoe * 365 + yoe / 4 - yoe / 100 + doy
  era * 146097 + doe

/-- Civil date of a day count: inverse of daysFromCivil on its range. -/
def civilFromDays (z : Nat) : CivilDate :=
  let era := z / 146097
  let doe := z % 146097
  let yoe := (doe - doe / 1460 + doe / 36524 - doe / 146096) / 365
  let y := yoe + era * 400
  let doy := doe - (365 * yoe + yoe / 4 - yoe / 100)
  let mp := (5 * doy + 2) / 153
  let d := doy - (153 * mp + 2) / 5 + 1
  let m := if mp < 10 then mp + 3 else mp - 9
  { year := if m ≤ 2 then y + 1 else y, month := m, day := d }

/-- Calendar addition of days, as setDate(getDate() + n) performs it. -/
def addDays (dt : CivilDate) (n : Nat) : CivilDate :=
  civilFromDays (daysFromCivil dt + n)

/-- Two-digit zero padding. -/
def pad2 (n : Nat) : List Char := if n < 10 then '0' :: renderNat n else renderNat n

/-- Four-digit zero padding. -/
def pad4 (n : Nat) : List Char :=
  List.replicate (4 - (renderNat n).length) '0' ++ renderNat n

/-- ISO date string YYYY-MM-DD, as toISOString().split('T')[0] yields. -/
def dateToISO (dt : CivilDate) : String :=
  String.mk (pad4 dt.year ++ '-' :: (pad2 dt.month ++ '-' :: pad2 dt.day))

/-! ## AFIPService (src/src/lib/afip.ts) -/

/-- Maps the document kind to the Authority's numeric document-type code;
tipos[tipo] || 1 falls back to 1 for unknown kinds. -/
def getTipoComprobante (tipo : String) : Nat :=
  if tipo = "factura" then 1
  else if tipo = "nota_credito" then 2
  else if tipo = "nota_debito" then 3
  else 1

/-- Value to exactly two decimals, the model of Number.toFixed(2). -/
def toFixed2 (q : ℚ) : String :=
  let c := ((100 * |q| + 1 / 2).floor).toNat
  let ds := renderNat (c / 100) ++
    '.' :: [digitCh (c % 100 / 10), digitCh (c % 100 % 10)]
  if q < 0 then String.mk ('-' :: ds) else String.mk ds

/-- One ar:AlicIva element of the request body. -/
structure AlicIva where
  id : Nat
  baseImp : String
  importe : String
deriving DecidableEq

/-- The structured content of the ar:FECAESolicitar request document built by
generateXMLRequest (the XML serialization itself adds no information). -/
structure FECAERequest where
  token : String
  sign : String
  cuit : String
  cantReg : Nat
  ptoVta : Nat
  cbteTipo : Nat
  concepto : Nat
  docTipo : Nat
  docNro : String
  cbteDesde : Nat
  cbteHasta : Nat
  cbteFch : String
  impTotal : String
  impTotConc : ℚ
  impNeto : String
  impOpEx : ℚ
  impIVA : String
  impTrib : ℚ
  monId : String
  monCotiz : ℚ
  iva : List AlicIva
deriving DecidableEq

/-- generateXMLRequest: builds the Authority request document for one
invoice. The ar:AlicIva list is produced by invoiceData.items.map, one entry
per item, each with the hard-coded rate code 5 (21%). -/
def generateXMLRequest (config : AFIPConfig) (invoiceData : InvoiceData) :
    FECAERequest :=
  let tipoComprobante := getTipoComprobante invoiceData.tipoComprobante
  { token := "TOKEN_PLACEHOLDER"
    sign := "SIGN_PLACEHOLDER"
    cuit := config.cuit
    cantReg := 1
    ptoVta := config.puntoVenta
    cbteTipo := tipoComprobante
    concepto := 1
    docTipo := 80
    docNro := invoiceData.cliente.numeroDocumento
    cbteDesde := invoiceData.numeroComprobante
    cbteHasta := invoiceData.numeroComprobante
    cbteFch := String.mk (invoiceData.fecha.data.filter (· ≠ '-'))
    impTotal := toFixed2 invoiceData.total
    impTotConc := 0
    impNeto := toFixed2 invoiceData.subtotal
    impOpEx := 0
    impIVA := toFixed2 invoiceData.totalIVA
    impTrib := 0
    monId := "PES"
    monCotiz := 1
    iva := invoiceData.items.map fun item =>
      { id := 5
        baseImp := toFixed2 (item.cantidad * item.precioUnitario)
        importe := toFixed2 item.importeIVA } }

/-- signXML: the simulated signature, replacing the two placeholders. -/
def signXML (req : FECAERequest) : FECAERequest :=
  { req with
    token := if req.token = "TOKEN_PLACEHOLDER" then "SIMULATED_TOKEN" else req.token
    sign := if req.sign = "SIGN_PLACEHOLDER" then "SIMULATED_SIGNATURE" else req.sign }

/-- generateSimulatedCAE: Math.floor(rand * 99999999999999) rendered in
decimal, left-padded with zeros to 14 characters. -/
def generateSimulatedCAE (rand : ℚ) : String :=
  let n := ((rand * 99999999999999).floor).toNat
  let s := renderNat n
  String.mk (List.replicate (14 - s.length) '0' ++ s)

/-- getFechaVencimientoCAE: ten days after the current clock date (new
Date()), rendered as an ISO date. -/
def getFechaVencimientoCAE (today : CivilDate) : String :=
  dateToISO (addDays today 10)

/-- getNextInvoiceNumber: Math.floor(rand * 1000) + 1; the document-kind
argument is never used. -/
def getNextInvoiceNumber (tipoComprobante : String) (rand : ℚ) : ℤ :=
  (rand * 1000).floor + 1

/-! ## JSON object serialization for the QR payload

JSON.stringify on a plain object emits the fields in insertion order.  The
model serializes a list of (name, value) fields to the JSON text and parses
it back against the fixed schema (the field names and kinds in order), which
is what a decoder of the QR content sees. -/

/-- A JSON field value of the payload: a natural number, a string, or a
monetary amount. -/
inductive FVal where
  | nat (v : Nat)
  | str (v : String)
  | money (v : ℚ)
deriving DecidableEq

/-- The kind of a field value. -/
inductive FKind where
  | nat
  | str
  | money
deriving DecidableEq

/-- Kind of a value. -/
def kindOf : FVal → FKind
  | .nat _ => .nat
  | .str _ => .str
  | .money _ => .money

/-- Monetary amounts in the payload are whole numbers of cents. -/
def validVal : FVal → Prop
  | .money q => ∃ c : ℕ, q = (c : ℚ) / 100
  | _ => True

/-- JSON text of one field value. -/
def fval : FVal → List Char
  | .nat v => renderNat v
  | .str v => '"' :: escapeChars v.data ++ ['"']
  | .money v => renderMoney v

/-- JSON text of a field key including the separating colon. -/
def fieldKey (name : String) : List Char :=
  '"' :: escapeChars name.data ++ '"' :: [':']

/-- JSON text of the fields of an object, including the closing brace. -/
def serializeFields : List (String × FVal) → List Char
  | [] => ['\x7d']
  | [(n, v)] => fieldKey n ++ fval v ++ ['\x7d']
  | (n, v) :: fs => fieldKey n ++ fval v ++ ',' :: serializeFields fs

/-- JSON text of an object. -/
def serializeObj (fs : List (String × FVal)) : List Char :=
  '\x7b' :: serializeFields fs

/-- Parse one field value of the expected kind. -/
def parseFVal : FKind → List Char → Option (FVal × List Char)
  | .nat, l => (parseNatRun l).map fun p => (.nat p.1, p.2)
  | .str, l =>
    match l with
    | '"' :: l2 => (parseStrBody l2).map fun p => (.str (String.mk p.1), p.2)
    | _ => none
  | .money, l => (parseMoney l).map fun p => (.money p.1, p.2)

/-- Parse the fields of an object against a schema, consuming the closing
brace, and return them with the unconsumed tail. -/
def parseFields : List (String × FKind) → List Char →
    Option (List (String × FVal) × List Char)
  | [], l =>
    match l with
    | '\x7d' :: rest => some ([], rest)
    | _ => none
  | (n, k) :: schema, l =>
    (expectLit (fieldKey n) l).bind fun l1 =>
    (parseFVal k l1).bind fun p =>
    match schema with
    | [] =>
      match p.2 with
      | '\x7d' :: rest => some ([(n, p.1)], rest)
      | _ => none
    | _ :: _ =>
      match p.2 with
      | ',' :: l2 => (parseFields schema l2).map fun q => ((n, p.1) :: q.1, q.2)
      | _ => none

/-- Parse a whole JSON object against a schema; succeeds only when the text
is consumed exactly. -/
def parseObj (schema : List (String × FKind)) (l : List Char) :
    Option (List (String × FVal)) :=
  match l with
  | '\x7b' :: l2 =>
    (parseFields schema l2).bind fun p =>
    match p.2 with
    | [] => some p.1
    | _ => none
  | _ => none

theorem cons_ne_dot {c : Char} (hc : ¬c = '.') (l : List Char) :
    ∀ m, c :: l ≠ '.' :: m :=
  fun _ h => hc (List.cons.inj h).1

theorem parseFVal_fval (v : FVal) (hv : validVal v) {rest : List Char}
    (h1 : headNotDigit rest = true) (h2 : ∀ l, rest ≠ '.' :: l) :
    parseFVal (kindOf v) (fval v ++ rest) = some (v, rest) := by
  cases v with
  | nat n => simp [kindOf, fval, parseFVal, parseNatRun_render n h1]
  | str s =>
    simp only [kindOf, fval, List.cons_append, List.append_assoc,
      List.singleton_append]
    simp [parseFVal, parseStrBody_escape]
  | money q =>
    obtain ⟨c, rfl⟩ := hv
    simp [kindOf, fval, parseFVal, parseMoney_render c h1 h2]

theorem parseFields_serializeFields :
    ∀ (fs : List (String × FVal)) (rest : List Char),
      (∀ f ∈ fs, validVal f.2) →
      parseFields (fs.map fun f => (f.1, kindOf f.2)) (serializeFields fs ++ rest) =
        some (fs, rest)
  | [], rest, _ => by simp [serializeFields, parseFields]
  | [(n, v)], rest, hv => by
    have hv' : validVal v := hv (n, v) (by simp)
    simp only [List.map_cons, List.map_nil, serializeFields, List.append_assoc,
      List.cons_append, List.singleton_append, List.nil_append]
    simp only [parseFields]
    rw [expectLit_append]
    simp only [Option.some_bind]
    rw [parseFVal_fval v hv' (by rfl) (cons_ne_dot (by decide) _)]
    simp
  | (n, v) :: g :: fs, rest, hv => by
    have hv' : validVal v := hv (n, v) (by simp)
    have ih := parseFields_serializeFields (g :: fs) rest
      (fun f hf => hv f (by simp [hf]))
    simp only [List.map_cons, serializeFields, List.append_assoc,
      List.cons_append, List.singleton_append, List.nil_append] at ih ⊢
    rw [parseFields.eq_def]
    simp only []
    rw [expectLit_append]
    simp only [Option.some_bind]
    rw [parseFVal_fval v hv' (by rfl) (cons_ne_dot (by decide) _)]
    simp [ih]

theorem parseObj_serializeObj (fs : List (String × FVal))
    (hv : ∀ f ∈ fs, validVal f.2) :
    parseObj (fs.map fun f => (f.1, kindOf f.2)) (serializeObj fs) = some fs := by
  have h := parseFields_serializeFields fs [] hv
  rw [List.append_nil] at h
  simp [parseObj, serializeObj, h]

/-! ## QR payload (generateQRCode of src/src/lib/afip.ts) -/

/-- The canonical verification payload (the qrData object). -/
structure QRData where
  ver : Nat
  fecha : String
  cuit : String
  ptoVta : Nat
  tipoCmp : Nat
  nroCmp : Nat
  importe : ℚ
  moneda : String
  ctz : Nat
  tipoDocRec : Nat
  nroDocRec : String
  tipoCodAut : String
  codAut : String
deriving DecidableEq

/-- The qrData object generateQRCode builds for an invoice and CAE. -/
def generateQRData (config : AFIPConfig) (invoiceData : InvoiceData)
    (cae : String) : QRData :=
  { ver := 1
    fecha := invoiceData.fecha
    cuit := config.cuit
    ptoVta := config.puntoVenta
    tipoCmp := getTipoComprobante invoiceData.tipoComprobante
    nroCmp := invoiceData.numeroComprobante
    importe := invoiceData.total
    moneda := "PES"
    ctz := 1
    tipoDocRec := 80
    nroDocRec := invoiceData.cliente.numeroDocumento
    tipoCodAut := "E"
    codAut := cae }

/-- The payload fields with their names, in the insertion order
JSON.stringify preserves. -/
def qrFields (d : QRData) : List (String × FVal) :=
  [("ver", .nat d.ver), ("fecha", .str d.fecha), ("cuit", .str d.cuit),
   ("ptoVta", .nat d.ptoVta), ("tipoCmp", .nat d.tipoCmp),
   ("nroCmp", .nat d.nroCmp), ("importe", .money d.importe),
   ("moneda", .str d.moneda), ("ctz", .nat d.ctz),
   ("tipoDocRec", .nat d.tipoDocRec), ("nroDocRec", .str d.nroDocRec),
   ("tipoCodAut", .str d.tipoCodAut), ("codAut", .str d.codAut)]

/-- The fixed field schema of the payload: names and kinds in order. -/
def qrSchema : List (String × FKind) :=
  [("ver", .nat), ("fecha", .str), ("cuit", .str), ("ptoVta", .nat),
   ("tipoCmp", .nat), ("nroCmp", .nat), ("importe", .money), ("moneda", .str),
   ("ctz", .nat), ("tipoDocRec", .nat), ("nroDocRec", .str),
   ("tipoCodAut", .str), ("codAut", .str)]

/-- The serialized payload text (JSON.stringify(qrData)). -/
def qrString (d : QRData) : String := String.mk (serializeObj (qrFields d))

/-! ## Form page calculations (src/src/app/page.tsx) -/

/-- The per-item recomputation effect: importeIVA and importeTotal derived
from cantidad, precioUnitario and alicuotaIVA. -/
def computeItemDerived (item : InvoiceItem) : InvoiceItem :=
  let subtotalItem := item.cantidad * item.precioUnitario
  let ivaItem := subtotalItem * (item.alicuotaIVA / 100)
  let totalItem := subtotalItem + ivaItem
  { item with importeIVA := round2 ivaItem, importeTotal := round2 totalItem }

/-- calculateTotals: reduce-sums over the items, each total rounded to two
decimals at the end. -/
def calculateTotals (items : List InvoiceItem) : ℚ × ℚ × ℚ :=
  let subtotal := items.foldl (fun sum item => sum + item.cantidad * item.precioUnitario) 0
  let totalIVA := items.foldl (fun sum item => sum + item.importeIVA) 0
  let total := subtotal + totalIVA
  (round2 subtotal, round2 totalIVA, round2 total)

/-! ## sendInvoice (src/src/lib/afip.ts) and POST (the API route) -/

/-- sendInvoice: validation of required data, request construction, simulated
signing, simulated CAE issuance, QR encoding, and the catch branch that turns
an encoder fault into a failure result. -/
def sendInvoice (config : AFIPConfig) (invoiceData : InvoiceData) (rand : ℚ)
    (today : CivilDate) (qrEncode : String → Except String String) :
    AFIPResponse :=
  if invoiceData.cliente.numeroDocumento = "" ∨ invoiceData.items = [] then
    { success := false, cae := none, fechaVencimientoCae := none,
      numeroComprobante := none, qrCode := none,
      error := some "Datos incompletos: se requiere CUIT del cliente e items",
      observaciones := none }
  else
    let xmlRequest := generateXMLRequest config invoiceData
    let signedXML := signXML xmlRequest
    let simulatedCAE := generateSimulatedCAE rand
    let fechaVencimiento := getFechaVencimientoCAE today
    match qrEncode (qrString (generateQRData config invoiceData simulatedCAE)) with
    | .ok qr =>
      { success := true, cae := some simulatedCAE,
        fechaVencimientoCae := some fechaVencimiento,
        numeroComprobante := some invoiceData.numeroComprobante,
        qrCode := some qr,
        observaciones := some ["Comprobante autorizado correctamente"],
        error := none }
    | .error e =>
      { success := false, cae := none, fechaVencimientoCae := none,
        numeroComprobante := none, qrCode := none,
        error := some ("Error al procesar la factura: " ++ e),
        observaciones := none }

/-- Shape of the fecha field required by the Zod schema
(/^\d\x7b4\x7d-\d\x7b2\x7d-\d\x7b2\x7d$/). -/
def isISODateShape (s : String) : Bool :=
  match s.data with
  | [y1, y2, y3, y4, h1, m1, m2, h2, d1, d2] =>
    y1.isDigit && y2.isDigit && y3.isDigit && y4.isDigit && (h1 == '-') &&
    m1.isDigit && m2.isDigit && (h2 == '-') && d1.isDigit && d2.isDigit
  | _ => false

/-- The Zod item schema of the route. -/
def zodValidItem (it : InvoiceItem) : Bool :=
  !(it.descripcion == "") && decide (0 < it.cantidad) &&
  decide (0 < it.precioUnitario) && decide (0 ≤ it.alicuotaIVA) &&
  decide (it.alicuotaIVA ≤ 100) && decide (0 ≤ it.importeIVA) &&
  decide (0 < it.importeTotal)

/-- The Zod client schema of the route. -/
def zodValidCliente (c : ClienteData) : Bool :=
  !(c.tipoDocumento == "") && !(c.numeroDocumento == "") &&
  !(c.razonSocial == "") && !(c.domicilio == "") && !(c.condicionIVA == "")

/-- The Zod invoice schema of the route. -/
def zodValidInvoice (inv : InvoiceData) : Bool :=
  (inv.tipoComprobante == "factura" || inv.tipoComprobante == "nota_credito" ||
    inv.tipoComprobante == "nota_debito") &&
  decide (0 < inv.puntoVenta) && decide (0 < inv.numeroComprobante) &&
  isISODateShape inv.fecha && zodValidCliente inv.cliente &&
  !inv.items.isEmpty && inv.items.all zodValidItem &&
  decide (0 < inv.subtotal) && decide (0 ≤ inv.totalIVA) && decide (0 < inv.total)

/-- Outcome of the POST route handler: a 400 validation rejection, a 500
error after a failed submission, or a 200 response carrying the submission
result. sendInvoice is invoked exactly in the latter two cases. -/
inductive POSTResult where
  | badRequest (error : String)
  | serverError (error : String)
  | success (resp : AFIPResponse)
deriving DecidableEq

/-- The POST route handler after JSON body parsing: Zod validation, the two
totals cross-checks against values recomputed from the items, and dispatch
to afipService.sendInvoice. -/
def POST (config : AFIPConfig) (inv : InvoiceData) (rand : ℚ)
    (today : CivilDate) (qrEncode : String → Except String String) : POSTResult :=
  if !(zodValidInvoice inv) then .badRequest "Datos de factura inválidos"
  else
    let calculatedSubtotal :=
      inv.items.foldl (fun sum item => sum + item.cantidad * item.precioUnitario) 0
    let calculatedIVA := inv.items.foldl (fun sum item => sum + item.importeIVA) 0
    if 1/100 < |calculatedSubtotal - inv.subtotal| then
      .badRequest "El subtotal calculado no coincide con el enviado"
    else if 1/100 < |calculatedIVA - inv.totalIVA| then
      .badRequest "El total de IVA calculado no coincide con el enviado"
    else
      let afipResponse := sendInvoice config inv rand today qrEncode
      if !afipResponse.success then
        .serverError
          (match afipResponse.error with
           | some e => if e == "" then "Error al procesar la factura en AFIP" else e
           | none => "Error al procesar la factura en AFIP")
      else .success afipResponse

/-! ## Claims -/

/-- A concrete service configuration. -/
def cfg0 : AFIPConfig :=
  { cuit := "20123456789", puntoVenta := 1, certificatePath := "",
    certificatePassword := "",
    endpoint := "https://wswhomo.afip.gov.ar/wsfev1/service.asmx",
    ambiente := "testing" }

/-- A concrete recipient with all required fields present. -/
def cliente0 : ClienteData :=
  { tipoDocumento := "CUIT", numeroDocumento := "20300123456",
    razonSocial := "Cliente SA", domicilio := "Calle 1",
    condicionIVA := "Responsable Inscripto" }

/-- The scenario line: quantity 2, unit price 100, rate 21%, tax 42,
line total 242. -/
def item0 : InvoiceItem :=
  { id := "1", descripcion := "producto", cantidad := 2, precioUnitario := 100,
    alicuotaIVA := 21, importeIVA := 42, importeTotal := 242 }

/-- The scenario invoice: one line, net 200, tax 42, total 242. -/
def invoice0 : InvoiceData :=
  { tipoComprobante := "factura", puntoVenta := 1, numeroComprobante := 123,
    fecha := "2024-01-01", cliente := cliente0, items := [item0],
    subtotal := 200, totalIVA := 42, total := 242, observaciones := none }

/-- Concrete item with quantity 0.83, unit price 1.57, rate 21%:
0.83 * 1.57 = 1.3031, tax 0.273651. -/
def c1Item : InvoiceItem :=
  { id := "1", descripcion := "producto", cantidad := 83 / 100,
    precioUnitario := 157 / 100, alicuotaIVA := 21, importeIVA := 0,
    importeTotal := 0 }

/-- C1, amended: for every line with positive quantity and unit price and a
rate from the four allowed values, the recomputation effect sets importeIVA to
round2(quantity*unitPrice*taxRatePercent/100) and importeTotal to
round2(quantity*unitPrice + quantity*unitPrice*taxRatePercent/100) — the
rounding is applied to the sum with the unrounded tax, not added after
rounding the two parts separately. -/
theorem computeItemDerived_spec (item : InvoiceItem)
    (hq : 0 < item.cantidad) (hp : 0 < item.precioUnitario)
    (hr : item.alicuotaIVA = 0 ∨ item.alicuotaIVA = 10.5 ∨
      item.alicuotaIVA = 21 ∨ item.alicuotaIVA = 27) :
    (computeItemDerived item).importeIVA =
      round2 (item.cantidad * item.precioUnitario * item.alicuotaIVA / 100) ∧
    (computeItemDerived item).importeTotal =
      round2 (item.cantidad * item.precioUnitario +
        item.cantidad * item.precioUnitario * item.alicuotaIVA / 100) := by
  constructor <;> simp only [computeItemDerived] <;> congr 1 <;> ring

/-- C1, claim as stated is false: at quantity 0.83, unit price 1.57, rate 21%,
the effect computes importeTotal = round2(1.3031 + 0.273651) = 1.58, while
round2(quantity*unitPrice) + importeIVA = 1.30 + 0.27 = 1.57. -/
theorem computeItemDerived_claim_counterexample :
    0 < c1Item.cantidad ∧ 0 < c1Item.precioUnitario ∧ c1Item.alicuotaIVA = 21 ∧
    (computeItemDerived c1Item).importeIVA =
      round2 (c1Item.cantidad * c1Item.precioUnitario * c1Item.alicuotaIVA / 100) ∧
    (computeItemDerived c1Item).importeTotal = 158 / 100 ∧
    round2 (c1Item.cantidad * c1Item.precioUnitario) +
      (computeItemDerived c1Item).importeIVA = 157 / 100 ∧
    (computeItemDerived c1Item).importeTotal ≠
      round2 (c1Item.cantidad * c1Item.precioUnitario) +
        (computeItemDerived c1Item).importeIVA := by
  have hiva : round2 ((83 : ℚ) / 100 * (157 / 100) * (21 / 100)) = 27 / 100 :=
    round2_eq_of _ 27 (by norm_num) (by norm_num)
  have htot : round2 ((83 : ℚ) / 100 * (157 / 100) +
      83 / 100 * (157 / 100) * (21 / 100)) = 158 / 100 :=
    round2_eq_of _ 158 (by norm_num) (by norm_num)
  have hsub : round2 ((83 : ℚ) / 100 * (157 / 100)) = 130 / 100 :=
    round2_eq_of _ 130 (by norm_num) (by norm_num)
  refine ⟨by norm_num [c1Item], by norm_num [c1Item], by norm_num [c1Item],
    ?_, ?_, ?_, ?_⟩
  · exact (computeItemDerived_spec c1Item (by norm_num [c1Item])
      (by norm_num [c1Item]) (by norm_num [c1Item])).1
  · simp only [computeItemDerived, c1Item]
    rw [htot]
  · simp only [computeItemDerived, c1Item]
    rw [hiva, hsub]
    norm_num
  · simp only [computeItemDerived, c1Item]
    rw [hiva, hsub, htot]
    norm_num

/-- C1 witness: the amended theorem applied to the 0.83 / 1.57 / 21% item. -/
theorem computeItemDerived_spec_witness :
    (0 < c1Item.cantidad ∧ 0 < c1Item.precioUnitario ∧
      (c1Item.alicuotaIVA = 0 ∨ c1Item.alicuotaIVA = 10.5 ∨
        c1Item.alicuotaIVA = 21 ∨ c1Item.alicuotaIVA = 27)) ∧
    ((computeItemDerived c1Item).importeIVA =
      round2 (c1Item.cantidad * c1Item.precioUnitario * c1Item.alicuotaIVA / 100) ∧
    (computeItemDerived c1Item).importeTotal =
      round2 (c1Item.cantidad * c1Item.precioUnitario +
        c1Item.cantidad * c1Item.precioUnitario * c1Item.alicuotaIVA / 100)) :=
  ⟨⟨by norm_num [c1Item], by norm_num [c1Item], by norm_num [c1Item]⟩,
    computeItemDerived_spec c1Item (by norm_num [c1Item]) (by norm_num [c1Item])
      (by norm_num [c1Item])⟩

theorem foldl_add_eq_sum (f : InvoiceItem → ℚ) :
    ∀ (l : List InvoiceItem) (a : ℚ),
      l.foldl (fun sum it => sum + f it) a = a + (l.map f).sum
  | [], a => by simp
  | it :: l, a => by
    rw [List.foldl_cons, foldl_add_eq_sum f l (a + f it)]
    simp [add_assoc]

/-- C9: computing the invoice totals is order-independent — permuting the
item list leaves calculateTotals of the page and the reduce-sums of the POST
route unchanged. -/
theorem calculateTotals_perm (l1 l2 : List InvoiceItem) (h : l1.Perm l2) :
    calculateTotals l1 = calculateTotals l2 ∧
    l1.foldl (fun sum it => sum + it.cantidad * it.precioUnitario) 0 =
      l2.foldl (fun sum it => sum + it.cantidad * it.precioUnitario) 0 ∧
    l1.foldl (fun sum it => sum + it.importeIVA) 0 =
      l2.foldl (fun sum it => sum + it.importeIVA) 0 := by
  have hs : ∀ f : InvoiceItem → ℚ,
      l1.foldl (fun sum it => sum + f it) 0 = l2.foldl (fun sum it => sum + f it) 0 := by
    intro f
    rw [foldl_add_eq_sum, foldl_add_eq_sum, (h.map f).sum_eq]
  refine ⟨?_, hs _, hs _⟩
  simp only [calculateTotals]
  rw [hs fun it => it.cantidad * it.precioUnitario, hs fun it => it.importeIVA]

/-- A second line for the permutation witness. -/
def c9Item : InvoiceItem :=
  { id := "2", descripcion := "servicio", cantidad := 1, precioUnitario := 50,
    alicuotaIVA := 0, importeIVA := 0, importeTotal := 50 }

/-- C9 witness: the theorem applied to a two-line list and its swap. -/
theorem calculateTotals_perm_witness :
    ([c9Item, item0].Perm [item0, c9Item]) ∧
    calculateTotals [c9Item, item0] = calculateTotals [item0, c9Item] :=
  ⟨List.Perm.swap item0 c9Item [],
    (calculateTotals_perm [c9Item, item0] [item0, c9Item]
      (List.Perm.swap item0 c9Item [])).1⟩

/-- C10: getNextInvoiceNumber returns a value between 1 and 1000 and ignores
its document-kind argument. -/
theorem getNextInvoiceNumber_spec (tipo : String) (rand : ℚ)
    (h0 : 0 ≤ rand) (h1 : rand < 1) :
    1 ≤ getNextInvoiceNumber tipo rand ∧
    getNextInvoiceNumber tipo rand ≤ 1000 ∧
    ∀ tipo2 : String, getNextInvoiceNumber tipo2 rand = getNextInvoiceNumber tipo rand := by
  unfold getNextInvoiceNumber
  rw [ratFloor_intFloor]
  refine ⟨?_, ?_, fun _ => rfl⟩
  · have : (0 : ℤ) ≤ ⌊rand * 1000⌋ := Int.floor_nonneg.mpr (by positivity)
    omega
  · have : ⌊rand * 1000⌋ < 1000 := Int.floor_lt.mpr (by push_cast; nlinarith)
    omega

/-- C10 witness: the bounds and kind-independence at rand = 1/2. -/
theorem getNextInvoiceNumber_spec_witness :
    (0 ≤ (1 : ℚ) / 2 ∧ (1 : ℚ) / 2 < 1) ∧
    (1 ≤ getNextInvoiceNumber "factura" (1 / 2) ∧
      getNextInvoiceNumber "factura" (1 / 2) ≤ 1000 ∧
      getNextInvoiceNumber "nota_credito" (1 / 2) =
        getNextInvoiceNumber "factura" (1 / 2)) :=
  ⟨⟨by norm_num, by norm_num⟩,
    have h := getNextInvoiceNumber_spec "factura" (1 / 2) (by norm_num) (by norm_num)
    ⟨h.1, h.2.1, h.2.2 "nota_credito"⟩⟩

/-- C4: sendInvoice is a total function of its inputs (the only fallible
step, the QR encoder, is caught and folded into the failure shape), and in
every result the authorization code is present iff success is true while the
error message is present iff success is false. -/
theorem sendInvoice_result_shape (config : AFIPConfig) (inv : InvoiceData)
    (rand : ℚ) (today : CivilDate) (qrEncode : String → Except String String) :
    ((sendInvoice config inv rand today qrEncode).cae ≠ none ↔
      (sendInvoice config inv rand today qrEncode).success = true) ∧
    ((sendInvoice config inv rand today qrEncode).error ≠ none ↔
      (sendInvoice config inv rand today qrEncode).success = false) := by
  by_cases h : inv.cliente.numeroDocumento = "" ∨ inv.items = []
  · simp [sendInvoice, h]
  · simp only [sendInvoice, if_neg h]
    cases hq : qrEncode (qrString (generateQRData config inv
        (generateSimulatedCAE rand))) with
    | ok q => simp
    | error e => simp

/-- C6, amended: with an empty line list or an empty recipient document
number — the only recipient field sendInvoice checks — the result is the
fixed failure (success false, descriptive error, no authorization code), a
constant that does not depend on the randomness, the clock, or the QR
encoder, so the request is never built, signed, or submitted. Other required
recipient fields are not validated here. -/
theorem sendInvoice_rejects_incomplete (config : AFIPConfig) (inv : InvoiceData)
    (rand : ℚ) (today : CivilDate) (qrEncode : String → Except String String)
    (h : inv.items = [] ∨ inv.cliente.numeroDocumento = "") :
    sendInvoice config inv rand today qrEncode =
      { success := false, cae := none, fechaVencimientoCae := none,
        numeroComprobante := none, qrCode := none,
        error := some "Datos incompletos: se requiere CUIT del cliente e items",
        observaciones := none } := by
  rw [sendInvoice, if_pos h.symm]

/-- An invoice with an empty line list. -/
def c6Invoice : InvoiceData :=
  { tipoComprobante := "factura", puntoVenta := 1, numeroComprobante := 7,
    fecha := "2024-01-01", cliente := cliente0, items := [],
    subtotal := 0, totalIVA := 0, total := 0, observaciones := none }

/-- C6 witness: the empty-lines invoice is rejected with the fixed failure. -/
theorem sendInvoice_rejects_incomplete_witness :
    (c6Invoice.items = [] ∨ c6Invoice.cliente.numeroDocumento = "") ∧
    sendInvoice cfg0 c6Invoice 0 ⟨2024, 1, 1⟩ (fun _ => .ok "QR") =
      { success := false, cae := none, fechaVencimientoCae := none,
        numeroComprobante := none, qrCode := none,
        error := some "Datos incompletos: se requiere CUIT del cliente e items",
        observaciones := none } :=
  ⟨Or.inl rfl,
    sendInvoice_rejects_incomplete cfg0 c6Invoice 0 ⟨2024, 1, 1⟩
      (fun _ => .ok "QR") (Or.inl rfl)⟩

/-- The scenario invoice with the recipient's legal name left empty but the
document number present. -/
def c6bInvoice : InvoiceData :=
  { invoice0 with cliente := { cliente0 with razonSocial := "" } }

/-- C6, claim as stated is false for recipient fields other than the document
number: an invoice whose recipient legal name (razonSocial) is empty — a
required recipient field — is not rejected; the submission succeeds, because
sendInvoice only checks the document number and the line list. -/
theorem sendInvoice_recipient_field_counterexample :
    c6bInvoice.cliente.razonSocial = "" ∧
    (sendInvoice cfg0 c6bInvoice (1 / 2) ⟨2024, 1, 1⟩ (fun _ => .ok "QR")).success
      = true ∧
    (sendInvoice cfg0 c6bInvoice (1 / 2) ⟨2024, 1, 1⟩ (fun _ => .ok "QR")).error
      = none :=
  ⟨rfl, rfl, rfl⟩

/-- C5, amended: every document kind outside the lookup table maps to the
default code 1, but the fallback is silent — the remarks of a successful
submission are always exactly the fixed success message, with no fallback
remark, whatever the document kind. -/
theorem getTipoComprobante_fallback (tipo : String)
    (h : tipo ≠ "factura" ∧ tipo ≠ "nota_credito" ∧ tipo ≠ "nota_debito") :
    getTipoComprobante tipo = 1 ∧
    ∀ (config : AFIPConfig) (inv : InvoiceData) (rand : ℚ) (today : CivilDate)
      (qrEncode : String → Except String String),
      (sendInvoice config inv rand today qrEncode).success = true →
      (sendInvoice config inv rand today qrEncode).observaciones =
        some ["Comprobante autorizado correctamente"] := by
  constructor
  · simp [getTipoComprobante, h.1, h.2.1, h.2.2]
  · intro config inv rand today qrEncode hsucc
    by_cases hv : inv.cliente.numeroDocumento = "" ∨ inv.items = []
    · simp [sendInvoice, hv] at hsucc
    · simp only [sendInvoice, if_neg hv] at hsucc ⊢
      cases hq : qrEncode (qrString (generateQRData config inv
          (generateSimulatedCAE rand))) with
      | ok q => simp
      | error e => simp [hq] at hsucc

/-- The scenario invoice with an unknown document kind. -/
def c5Invoice : InvoiceData :=
  { invoice0 with tipoComprobante := "recibo" }

/-- C5, claim as stated is false: the unknown kind "recibo" falls back to
document-type code 1, yet the submission result's remarks are exactly the
ones of the known-kind invoice — the fixed success message — so the fallback
is not surfaced as a remark. -/
theorem getTipoComprobante_fallback_counterexample :
    getTipoComprobante "recibo" = 1 ∧
    (sendInvoice cfg0 c5Invoice (1 / 2) ⟨2024, 1, 1⟩ (fun _ => .ok "QR")).success
      = true ∧
    (sendInvoice cfg0 c5Invoice (1 / 2) ⟨2024, 1, 1⟩ (fun _ => .ok "QR")).observaciones
      = (sendInvoice cfg0 invoice0 (1 / 2) ⟨2024, 1, 1⟩ (fun _ => .ok "QR")).observaciones ∧
    (sendInvoice cfg0 c5Invoice (1 / 2) ⟨2024, 1, 1⟩ (fun _ => .ok "QR")).observaciones
      = some ["Comprobante autorizado correctamente"] :=
  ⟨rfl, rfl, rfl, rfl⟩

/-- C5 witness: the amended theorem applied to the kind "recibo" and the
concrete submission. -/
theorem getTipoComprobante_fallback_witness :
    ("recibo" ≠ "factura" ∧ "recibo" ≠ "nota_credito" ∧ "recibo" ≠ "nota_debito") ∧
    getTipoComprobante "recibo" = 1 ∧
    (sendInvoice cfg0 c5Invoice (1 / 2) ⟨2024, 1, 1⟩ (fun _ => .ok "QR")).observaciones
      = some ["Comprobante autorizado correctamente"] :=
  ⟨⟨by decide, by decide, by decide⟩,
    (getTipoComprobante_fallback "recibo" ⟨by decide, by decide, by decide⟩).1,
    (getTipoComprobante_fallback "recibo" ⟨by decide, by decide, by decide⟩).2
      cfg0 c5Invoice (1 / 2) ⟨2024, 1, 1⟩ (fun _ => .ok "QR") rfl⟩

/-- C3, amended: the built request document carries one AlicIva entry per
invoice line (items.map), each with the rate code 5 baked in — not a single
aggregate entry per invoice. -/
theorem generateXMLRequest_alicIva (config : AFIPConfig) (inv : InvoiceData) :
    (generateXMLRequest config inv).iva.length = inv.items.length ∧
    ∀ e ∈ (generateXMLRequest config inv).iva, e.id = 5 := by
  constructor
  · simp [generateXMLRequest]
  · intro e he
    simp only [generateXMLRequest, List.mem_map] at he
    obtain ⟨it, _, rfl⟩ := he
    rfl

/-- A two-line invoice. -/
def c3Invoice : InvoiceData :=
  { invoice0 with items := [item0, c9Item] }

/-- C3, claim as stated is false: the request built for a two-line invoice
contains two AlicIva entries, not exactly one. -/
theorem generateXMLRequest_alicIva_counterexample :
    c3Invoice.items.length = 2 ∧
    (generateXMLRequest cfg0 c3Invoice).iva.length = 2 ∧
    (2 : Nat) ≠ 1 :=
  ⟨rfl, rfl, by decide⟩

/-- C7, amended: the POST handler only cross-checks the supplied subtotal and
tax total against values recomputed from the lines (tolerance 0.01); the
supplied totalAmount is never validated. When the two checks pass on a
schema-valid body, the handler invokes sendInvoice whatever totalAmount says;
when the subtotal check fails, it rejects with a 400 before sendInvoice. -/
theorem POST_validation (config : AFIPConfig) (inv : InvoiceData) (rand : ℚ)
    (today : CivilDate) (qrEncode : String → Except String String)
    (hzod : zodValidInvoice inv = true) :
    (|inv.items.foldl (fun sum item => sum + item.cantidad * item.precioUnitario) 0
        - inv.subtotal| ≤ 1 / 100 →
     |inv.items.foldl (fun sum item => sum + item.importeIVA) 0 - inv.totalIVA|
        ≤ 1 / 100 →
     POST config inv rand today qrEncode =
        POSTResult.success (sendInvoice config inv rand today qrEncode) ∨
     ∃ e, POST config inv rand today qrEncode = POSTResult.serverError e) ∧
    (1 / 100 < |inv.items.foldl
        (fun sum item => sum + item.cantidad * item.precioUnitario) 0
        - inv.subtotal| →
     POST config inv rand today qrEncode =
       POSTResult.badRequest "El subtotal calculado no coincide con el enviado") := by
  constructor
  · intro h1 h2
    simp only [POST, hzod, Bool.not_true, Bool.false_eq_true, if_false,
      if_neg (not_lt.mpr h1), if_neg (not_lt.mpr h2)]
    by_cases hs : (sendInvoice config inv rand today qrEncode).success
    · left
      simp [hs]
    · right
      simp only [Bool.not_eq_true] at hs
      refine ⟨(match (sendInvoice config inv rand today qrEncode).error with
        | some e => if e == "" then "Error al procesar la factura en AFIP" else e
        | none => "Error al procesar la factura en AFIP"), ?_⟩
      simp [hs]
  · intro h1
    simp only [POST, hzod, Bool.not_true, Bool.false_eq_true, if_false,
      if_pos h1]

/-- The scenario invoice with the supplied total off by 1.00 (243 instead of
the 242 computed from the lines), subtotal and tax total left correct. -/
def c7Invoice : InvoiceData :=
  { invoice0 with total := 243 }

/-- C7, claim as stated is false: for the invoice whose supplied total is off
by 1.00 while subtotal and tax total match, the handler does not return a
validation failure — it invokes sendInvoice and returns its result. -/
theorem POST_claim_counterexample :
    c7Invoice.items.foldl (fun sum item => sum + item.cantidad * item.precioUnitario) 0
        + c7Invoice.items.foldl (fun sum item => sum + item.importeIVA) 0 = 242 ∧
    c7Invoice.total = 243 ∧
    POST cfg0 c7Invoice (1 / 2) ⟨2024, 1, 1⟩ (fun _ => .ok "QR") =
      POSTResult.success
        (sendInvoice cfg0 c7Invoice (1 / 2) ⟨2024, 1, 1⟩ (fun _ => .ok "QR")) := by
  have hzod : zodValidInvoice c7Invoice = true := by
    simp [zodValidInvoice, zodValidItem, zodValidCliente, isISODateShape,
      c7Invoice, invoice0, item0, cliente0, decide_eq_true_eq]
    norm_num
  have hsub : ¬((1 : ℚ) / 100 <
      |c7Invoice.items.foldl (fun sum item => sum + item.cantidad * item.precioUnitario) 0
        - c7Invoice.subtotal|) := by
    norm_num [c7Invoice, invoice0, item0]
  have hiva : ¬((1 : ℚ) / 100 <
      |c7Invoice.items.foldl (fun sum item => sum + item.importeIVA) 0
        - c7Invoice.totalIVA|) := by
    norm_num [c7Invoice, invoice0, item0]
  refine ⟨by norm_num [c7Invoice, invoice0, item0], rfl, ?_⟩
  simp only [POST, hzod, Bool.not_true, Bool.false_eq_true, if_false,
    if_neg hsub, if_neg hiva]
  have hsuccess : (sendInvoice cfg0 c7Invoice (1 / 2) ⟨2024, 1, 1⟩
      (fun _ => .ok "QR")).success = true := rfl
  rw [hsuccess]
  simp

/-- C7 witness: the amended theorem applied to the off-by-1.00 invoice, whose
subtotal and tax checks pass. -/
theorem POST_validation_witness :
    zodValidInvoice c7Invoice = true ∧
    (POST cfg0 c7Invoice (1 / 2) ⟨2024, 1, 1⟩ (fun _ => .ok "QR") =
        POSTResult.success
          (sendInvoice cfg0 c7Invoice (1 / 2) ⟨2024, 1, 1⟩ (fun _ => .ok "QR")) ∨
      ∃ e, POST cfg0 c7Invoice (1 / 2) ⟨2024, 1, 1⟩ (fun _ => .ok "QR") =
        POSTResult.serverError e) := by
  have hzod : zodValidInvoice c7Invoice = true := by
    simp [zodValidInvoice, zodValidItem, zodValidCliente, isISODateShape,
      c7Invoice, invoice0, item0, cliente0, decide_eq_true_eq]
    norm_num
  refine ⟨hzod, ?_⟩
  exact (POST_validation cfg0 c7Invoice (1 / 2) ⟨2024, 1, 1⟩ (fun _ => .ok "QR")
      hzod).1
    (by norm_num [c7Invoice, invoice0, item0])
    (by norm_num [c7Invoice, invoice0, item0])

theorem generateSimulatedCAE_shape (rand : ℚ) (h0 : 0 ≤ rand) (h1 : rand < 1) :
    (generateSimulatedCAE rand).length = 14 ∧
    ∀ c ∈ (generateSimulatedCAE rand).data, c.isDigit = true := by
  have hfl : (rand * 99999999999999).floor < 99999999999999 := by
    rw [ratFloor_intFloor]
    exact Int.floor_lt.mpr (by push_cast; nlinarith)
  have hn : ((rand * 99999999999999).floor).toNat < 10 ^ 14 := by omega
  have hlen : (renderNat ((rand * 99999999999999).floor).toNat).length ≤ 14 := by
    set n := ((rand * 99999999999999).floor).toNat with hdefn
    by_cases h : n = 0
    · simp [renderNat, h]
    · rw [renderNat, if_neg h]
      have hd : (digitsToChars n).length = (Nat.digits 10 n).length := by
        simp [digitsToChars, natDigits_eq]
      rw [hd, Nat.digits_len 10 n (by norm_num) h]
      have := Nat.log_lt_of_lt_pow h hn
      omega
  constructor
  · simp only [generateSimulatedCAE, String.length, String.mk,
      List.length_append, List.length_replicate]
    omega
  · intro c hc
    simp only [generateSimulatedCAE, String.mk, List.mem_append,
      List.mem_replicate] at hc
    rcases hc with h | h
    · rw [h.2]
      decide
    · exact renderNat_all_digits _ c h

/-- C2, amended: for the scenario invoice (one line, quantity 2, unit price
100, rate 21%, net 200, tax 42, total 242), the simulated submission succeeds
with a 14-digit numeric CAE, and the CAE expiry date equals the current
processing date plus 10 days — the invoice's own issue date plays no role in
the expiry, so the expiry equals issueDate + 10 days only when the invoice is
processed on its issue date. -/
theorem sendInvoice_scenario (rand : ℚ) (today : CivilDate) (qr : String)
    (qrEncode : String → Except String String)
    (h0 : 0 ≤ rand) (h1 : rand < 1)
    (henc : qrEncode (qrString (generateQRData cfg0 invoice0
      (generateSimulatedCAE rand))) = .ok qr) :
    (sendInvoice cfg0 invoice0 rand today qrEncode).success = true ∧
    (sendInvoice cfg0 invoice0 rand today qrEncode).cae =
      some (generateSimulatedCAE rand) ∧
    (generateSimulatedCAE rand).length = 14 ∧
    (∀ c ∈ (generateSimulatedCAE rand).data, c.isDigit = true) ∧
    (sendInvoice cfg0 invoice0 rand today qrEncode).fechaVencimientoCae =
      some (dateToISO (addDays today 10)) := by
  have hshape := generateSimulatedCAE_shape rand h0 h1
  have hcond : ¬(invoice0.cliente.numeroDocumento = "" ∨ invoice0.items = []) := by
    decide
  refine ⟨?_, ?_, hshape.1, hshape.2, ?_⟩ <;>
    simp [sendInvoice, hcond, henc, getFechaVencimientoCAE]

/-- C2 witness: the amended theorem at rand = 1/2, processing date
2024-06-15, and a constant QR encoder. -/
theorem sendInvoice_scenario_witness :
    (0 ≤ (1 : ℚ) / 2 ∧ (1 : ℚ) / 2 < 1 ∧
      (fun _ : String => Except.ok (ε := String) "QR")
        (qrString (generateQRData cfg0 invoice0 (generateSimulatedCAE (1 / 2))))
        = .ok "QR") ∧
    ((sendInvoice cfg0 invoice0 (1 / 2) ⟨2024, 6, 15⟩ (fun _ => .ok "QR")).success
        = true ∧
      (sendInvoice cfg0 invoice0 (1 / 2) ⟨2024, 6, 15⟩ (fun _ => .ok "QR")).cae =
        some (generateSimulatedCAE (1 / 2)) ∧
      (generateSimulatedCAE (1 / 2)).length = 14 ∧
      (∀ c ∈ (generateSimulatedCAE (1 / 2)).data, c.isDigit = true) ∧
      (sendInvoice cfg0 invoice0 (1 / 2) ⟨2024, 6, 15⟩
          (fun _ => .ok "QR")).fechaVencimientoCae =
        some (dateToISO (addDays ⟨2024, 6, 15⟩ 10))) :=
  ⟨⟨by norm_num, by norm_num, rfl⟩,
    sendInvoice_scenario (1 / 2) ⟨2024, 6, 15⟩ "QR" (fun _ => .ok "QR")
      (by norm_num) (by norm_num) rfl⟩

/-- C2, claim as stated is false: the scenario invoice is issued on
2024-01-01, so issueDate + 10 days is 2024-01-11; processed on 2024-06-15,
the submission succeeds but carries the expiry 2024-06-25, ten days after the
processing date, not after the issue date. -/
theorem sendInvoice_expiry_counterexample :
    invoice0.fecha = "2024-01-01" ∧
    dateToISO (addDays ⟨2024, 1, 1⟩ 10) = "2024-01-11" ∧
    (sendInvoice cfg0 invoice0 (1 / 2) ⟨2024, 6, 15⟩ (fun _ => .ok "QR")).success
      = true ∧
    (sendInvoice cfg0 invoice0 (1 / 2) ⟨2024, 6, 15⟩
        (fun _ => .ok "QR")).fechaVencimientoCae = some "2024-06-25" ∧
    some "2024-06-25" ≠ some (dateToISO (addDays ⟨2024, 1, 1⟩ 10)) := by
  refine ⟨rfl, by decide, rfl, ?_, by decide⟩
  have : getFechaVencimientoCAE ⟨2024, 6, 15⟩ = "2024-06-25" := by decide
  simp only [sendInvoice, if_neg (by decide :
    ¬(invoice0.cliente.numeroDocumento = "" ∨ invoice0.items = []))]
  rw [this]

/-- C8: the verification payload built for an authorized submission is the
fixed-schema object with exactly the thirteen fields in order — ver, fecha,
cuit, ptoVta, tipoCmp, nroCmp, importe, moneda, ctz, tipoDocRec, nroDocRec,
tipoCodAut (fixed "E"), codAut — holding the values passed in, and decoding
the serialized payload against that schema reproduces the same field list,
order and values. -/
theorem generateQRCode_payload_roundtrip (config : AFIPConfig)
    (inv : InvoiceData) (cae : String) (hc : ∃ c : ℕ, inv.total = (c : ℚ) / 100) :
    qrFields (generateQRData config inv cae) =
      [("ver", .nat 1), ("fecha", .str inv.fecha), ("cuit", .str config.cuit),
       ("ptoVta", .nat config.puntoVenta),
       ("tipoCmp", .nat (getTipoComprobante inv.tipoComprobante)),
       ("nroCmp", .nat inv.numeroComprobante), ("importe", .money inv.total),
       ("moneda", .str "PES"), ("ctz", .nat 1), ("tipoDocRec", .nat 80),
       ("nroDocRec", .str inv.cliente.numeroDocumento),
       ("tipoCodAut", .str "E"), ("codAut", .str cae)] ∧
    parseObj qrSchema (qrString (generateQRData config inv cae)).data =
      some (qrFields (generateQRData config inv cae)) := by
  refine ⟨rfl, ?_⟩
  have hv : ∀ f ∈ qrFields (generateQRData config inv cae), validVal f.2 := by
    intro f hf
    simp only [qrFields, List.mem_cons, List.not_mem_nil, or_false] at hf
    rcases hf with rfl | rfl | rfl | rfl | rfl | rfl | rfl | rfl | rfl | rfl |
      rfl | rfl | rfl
    · exact trivial
    · exact trivial
    · exact trivial
    · exact trivial
    · exact trivial
    · exact trivial
    · exact hc
    · exact trivial
    · exact trivial
    · exact trivial
    · exact trivial
    · exact trivial
    · exact trivial
  exact parseObj_serializeObj (qrFields (generateQRData config inv cae)) hv

/-- C8 witness: the round-trip at the scenario invoice (total 242 = 24200
cents) with a concrete 14-digit CAE. -/
theorem generateQRCode_payload_roundtrip_witness :
    invoice0.total = ((24200 : ℕ) : ℚ) / 100 ∧
    parseObj qrSchema
        (qrString (generateQRData cfg0 invoice0 "12345678901234")).data =
      some (qrFields (generateQRData cfg0 invoice0 "12345678901234")) :=
  ⟨by norm_num [invoice0],
    (generateQRCode_payload_roundtrip cfg0 invoice0 "12345678901234"
      ⟨24200, by norm_num [invoice0]⟩).2⟩

end Facturacion
